import Mathlib

/-!
Verification of the SEO content detector pipeline (streamlit_app).

The Python sources are shallowly embedded:

* text values are Lean `String`s; Python `None` / pandas `NaN` cells are
  modelled with `Option`;
* Python floats are modelled exactly as rationals `ℚ`;
* the external HTTP layer is modelled by an `Option HttpResponse`
  (`none` = an exception raised during the request), where the response
  carries its status code, its byte length, and the DOM tree that the
  HTML parser library would produce for the body;
* the external readability library and the pickled classifier are
  modelled as opaque function parameters.
-/

/-! ## Python string primitives -/

/-- Maximal runs of characters satisfying `p`, in order; the accumulator
holds the (reversed) characters of the run currently being read. -/
def runsAux (p : Char → Bool) : List Char → List Char → List (List Char)
  | [], acc => if acc.isEmpty then [] else [acc.reverse]
  | c :: cs, acc =>
    if p c then runsAux p cs (c :: acc)
    else if acc.isEmpty then runsAux p cs []
    else acc.reverse :: runsAux p cs []

/-- Maximal runs of characters satisfying `p`, in order. -/
def runs (p : Char → Bool) (l : List Char) : List (List Char) :=
  runsAux p l []

/-- Python `str.split()` with no argument: the maximal runs of
non-whitespace characters, i.e. split on whitespace runs dropping
empty pieces. -/
def pySplit (s : String) : List String :=
  (runs (fun c => !c.isWhitespace) s.toList).map (fun l => String.mk l)

/-- Python `str.strip()`: drop whitespace from both ends. -/
def pyStrip (s : String) : String :=
  String.mk (((s.toList.dropWhile Char.isWhitespace).reverse.dropWhile
    Char.isWhitespace).reverse)

/-- A regex word character (`\w`, ASCII): letter, digit or underscore. -/
def isWordChar (c : Char) : Bool :=
  c.isAlpha || c.isDigit || c == '_'

/-- `set(re.findall(r'\b[a-zA-Z]\x7b4,\x7d\b', s.lower()))`: a match of that
pattern is exactly a maximal run of word characters that consists
entirely of letters and has length at least 4; the Python `set` of the
matches is a `Finset String`. -/
def keywords (s : String) : Finset String :=
  (((runs isWordChar (s.toList.map Char.toLower)).filter
      (fun r => decide (4 ≤ r.length) && r.all Char.isAlpha)).map
    (fun r => String.mk r)).toFinset

/-! ## Similarity ranker (`app.py`, `improved_similarity`) -/

/-- `1 - abs(target_word_count - existing_wc) / max(target_word_count, existing_wc, 1)`
(app.py line 181). -/
def wc_similarity (a b : ℕ) : ℚ :=
  1 - (((a : ℤ) - (b : ℤ)).natAbs : ℚ) / ((max a (max b 1) : ℕ) : ℚ)

/-- Keyword-set Jaccard overlap (app.py lines 184-190): 0 when either
keyword set is empty. -/
def keyword_overlap (t e : String) : ℚ :=
  if (keywords t).Nonempty ∧ (keywords e).Nonempty then
    ((keywords t ∩ keywords e).card : ℚ) /
      ((keywords t ∪ keywords e).card : ℚ)
  else 0

/-- `combined_similarity = (wc_similarity * 0.6) + (keyword_overlap * 0.4)`
(app.py line 193), with the word counts computed by `len(text.split())`. -/
def combined_similarity (t e : String) : ℚ :=
  wc_similarity (pySplit t).length (pySplit e).length * (6 / 10)
    + keyword_overlap t e * (4 / 10)

/-- A row of the merged reference corpus (`enhanced_data`, app.py line 211):
the left join always materialises the `quality_label` column, so a corpus
row carries `none` exactly when the cell is `NaN` (no matching features
row); the same for a missing `body_text` cell. -/
structure CorpusRow where
  url : String
  body_text : Option String
  quality_label : Option String
deriving DecidableEq

/-- One entry of the list built by `improved_similarity`. The `quality`
field holds `row.get('quality_label', 'Unknown')`: since the merged frame
always has the `quality_label` column, `Series.get` returns the stored
cell (`NaN` included, modelled `none`) and the `'Unknown'` default never
fires. -/
structure SimilarityResult where
  url : String
  similarity : ℚ
  word_count : ℕ
  quality : Option String
deriving DecidableEq

/-- The loop body of `improved_similarity` (app.py lines 169-201) for
one corpus row: skip the target's own url (`continue`) and `NaN` bodies,
score the rest, and keep the row only when its combined similarity
exceeds 0.3. -/
def candidateOfRow (target_url target_text : String) (row : CorpusRow) :
    Option SimilarityResult :=
  if row.url = target_url then none
  else
    match row.body_text with
    | none => none
    | some existing_text =>
      if 3 / 10 < combined_similarity target_text existing_text then
        some { url := row.url,
               similarity := combined_similarity target_text existing_text,
               word_count := (pySplit existing_text).length,
               quality := row.quality_label }
      else none

/-- The `similar_pages` list accumulated by the row loop of
`improved_similarity` (app.py lines 168-201), in corpus order. -/
def similarityCandidates (target_url target_text : String)
    (existing_data : List CorpusRow) : List SimilarityResult :=
  existing_data.filterMap (candidateOfRow target_url target_text)

/-- The comparison used for `similar_pages.sort(key=..., reverse=True)`:
Python's sort is stable, and with `reverse=True` equal keys keep their
original relative order, which is `mergeSort` with this relation. -/
def simDescLE (a b : SimilarityResult) : Bool :=
  decide (b.similarity ≤ a.similarity)

/-- `improved_similarity` (app.py lines 161-204). An empty target text is
falsy and returns `[]` immediately; otherwise the kept rows are sorted by
descending similarity (stably) and truncated to the first `top_n`. -/
def improved_similarity (target_url target_text : String)
    (existing_data : List CorpusRow) (top_n : ℕ) : List SimilarityResult :=
  if target_text = "" then []
  else
    ((similarityCandidates target_url target_text existing_data).mergeSort
      simDescLE).take top_n

/-! ## HTML model (the tree produced by the external HTML parser) -/

/-- A DOM node: an element with a tag name, attributes and children, or a
text node. -/
inductive Html where
  | elem (tag : String) (attrs : List (String × String)) (children : List Html)
  | text (s : String)

/-- The CSS selector forms used by the two scrapers: a tag name
(`article`), an attribute equality (`[role="main"]`), or a class name
(`.content`). -/
inductive Selector where
  | tagSel (name : String)
  | attrSel (key val : String)
  | classSel (name : String)

/-- First value of an attribute, if present. -/
def attrLookup (attrs : List (String × String)) (k : String) : Option String :=
  (attrs.find? (fun p => p.1 == k)).map Prod.snd

/-- Whether an element matches a selector; text nodes never match. A
class selector matches when the whitespace-separated `class` attribute
contains the name. -/
def matchesSel (sel : Selector) (h : Html) : Bool :=
  match h with
  | .text _ => false
  | .elem tag attrs _ =>
    match sel with
    | .tagSel n => tag == n
    | .attrSel k v => attrLookup attrs k == some v
    | .classSel n =>
      match attrLookup attrs "class" with
      | some cls => (pySplit cls).contains n
      | none => false

mutual

/-- `get_text()` of a node: the concatenation of all text descendants,
in document order, with no separator (the library default). -/
def getText : Html → String
  | .text s => s
  | .elem _ _ cs => getTextList cs

/-- `get_text()` over a forest, in order. -/
def getTextList : List Html → String
  | [] => ""
  | h :: t => getText h ++ getTextList t

end

mutual

/-- `soup.select`: all elements of the tree matching the selector, in
document (pre-order) order. -/
def selectNode (sel : Selector) : Html → List Html
  | .text _ => []
  | .elem tag attrs cs =>
    (if matchesSel sel (.elem tag attrs cs) then [Html.elem tag attrs cs] else [])
      ++ selectList sel cs

/-- `soup.select` over a forest (the document's top-level nodes). -/
def selectList (sel : Selector) : List Html → List Html
  | [] => []
  | h :: t => selectNode sel h ++ selectList sel t

end

/-- The `.string` accessor of a tag: the text of a single text child,
recursing through a single element child; `none` (Python `None`)
otherwise. -/
def tagString : Html → Option String
  | .text s => some s
  | .elem _ _ [c] => tagString c
  | .elem _ _ _ => none

/-- `soup.title.string if soup.title else ""`: `some ""` when the
document has no title element, otherwise the first title's `.string`
(which is `none`, i.e. Python `None`, when it is not a single string). -/
def extractTitle (doc : List Html) : Option String :=
  match (selectList (Selector.tagSel "title") doc).head? with
  | none => some ""
  | some t => tagString t

/-- Content of an HTTP response as the pipeline sees it: status code,
body length in bytes, and the DOM the HTML parser produces for the body.
A request that raises is modelled as `none : Option HttpResponse`. -/
structure HttpResponse where
  status : ℕ
  contentLength : ℕ
  doc : List Html

/-! ## `app.py` pipeline functions -/

namespace App

/-- The ordered selector list of `app.py` (lines 109-113). -/
def content_selectors : List Selector :=
  [.tagSel "article", .tagSel "main", .attrSel "role" "main",
   .classSel "content", .classSel "post-content", .classSel "article-content",
   .classSel "entry-content", .tagSel "section", .classSel "main-content"]

/-- `' '.join([elem.get_text().strip() for elem in elements if elem.get_text().strip()])`
(app.py line 119): space-join of the non-empty stripped element texts. -/
def joinTexts (elems : List Html) : String :=
  String.intercalate " "
    ((elems.map (fun e => pyStrip (getText e))).filter (fun t => t != ""))

/-- The selector loop of `app.py` (lines 116-122): take the first
selector with matching elements whose joined text exceeds 200
characters; `""` when none qualifies. -/
def selectLoop (doc : List Html) : List Selector → String
  | [] => ""
  | sel :: rest =>
    let elements := selectList sel doc
    if elements.isEmpty then selectLoop doc rest
    else
      let text := joinTexts elements
      if 200 < text.length then text else selectLoop doc rest

/-- Body-text extraction of `app.py` (lines 115-131): selector loop,
then the paragraph fallback, then the whole document's text. The
result is the raw text before whitespace normalisation. -/
def extractBody (doc : List Html) : String :=
  let fromSelectors := selectLoop doc content_selectors
  let withParagraphs :=
    if fromSelectors = "" then joinTexts (selectList (.tagSel "p") doc)
    else fromSelectors
  if withParagraphs = "" then getTextList doc else withParagraphs

/-- `scrape_and_parse_url` of `app.py` (lines 83-141), as a function of
the fetch outcome: an exception (`none`), an error status
(`raise_for_status` raises for 4xx/5xx), or a body under 1000 bytes all
return `("", "", 0)`; otherwise title and body are extracted, the body
is whitespace-normalised and the word count is taken. -/
def scrape_and_parse_url (resp : Option HttpResponse) :
    Option String × String × ℕ :=
  match resp with
  | none => (some "", "", 0)
  | some r =>
    if 400 ≤ r.status then (some "", "", 0)
    else if r.contentLength < 1000 then (some "", "", 0)
    else
      let title := extractTitle r.doc
      let body_text := String.intercalate " " (pySplit (extractBody r.doc))
      (title, body_text, (pySplit body_text).length)

/-- `calculate_features` of `app.py` (lines 143-149). The external
`flesch_reading_ease` is an opaque parameter; the sentence count is the
number of regex matches of one-or-more sentence terminators, i.e. of
maximal runs of characters from the set containing a period, an
exclamation mark and a question mark. -/
def calculate_features (flesch : String → ℚ) (body_text : String)
    (word_count : ℤ) : ℕ × ℚ × Bool :=
  let sentence_count :=
    if body_text ≠ "" then
      (runs (fun c => c == '.' || c == '!' || c == '?') body_text.toList).length
    else 0
  let readability :=
    if body_text ≠ "" ∧ 10 < (pySplit body_text).length then flesch body_text
    else 0
  let is_thin := decide (word_count < 500)
  (sentence_count, readability, is_thin)

/-- The classifier input row: a single-row DataFrame with the three
named feature columns (app.py lines 153-157). -/
structure ModelInput where
  word_count : ℤ
  sentence_count : ℤ
  flesch_reading_ease : ℚ

/-- `predict_quality` of `app.py` (lines 151-159): apply the opaque
pre-trained model to the three features and take the first prediction. -/
def predict_quality (model : ModelInput → String) (word_count : ℤ)
    (sentence_count : ℤ) (readability : ℚ) : String :=
  model ⟨word_count, sentence_count, readability⟩

end App

/-! ## `utils/` pipeline functions -/

namespace Utils

/-- The ordered selector list of `utils/parser.py` (line 21). -/
def content_selectors : List Selector :=
  [.tagSel "article", .tagSel "main", .classSel "content",
   .classSel "post-content", .tagSel "p"]

/-- `' '.join([elem.get_text().strip() for elem in elements])`
(parser.py line 26): space-join of all stripped element texts, with no
emptiness filter. -/
def joinTextsAll (elems : List Html) : String :=
  String.intercalate " " (elems.map (fun e => pyStrip (getText e)))

/-- The selector loop of `utils/parser.py` (lines 23-29): threshold 100
and no filtering of empty element texts. -/
def selectLoop (doc : List Html) : List Selector → String
  | [] => ""
  | sel :: rest =>
    let elements := selectList sel doc
    if elements.isEmpty then selectLoop doc rest
    else
      let text := joinTextsAll elements
      if 100 < text.length then text else selectLoop doc rest

/-- `scrape_and_parse_url` of `utils/parser.py` (lines 6-41): no check
on the body size, a shorter selector list with threshold 100, and the
whole-document fallback. -/
def scrape_and_parse_url (resp : Option HttpResponse) :
    Option String × String × ℕ :=
  match resp with
  | none => (some "", "", 0)
  | some r =>
    if 400 ≤ r.status then (some "", "", 0)
    else
      let title := extractTitle r.doc
      let fromSelectors := selectLoop r.doc content_selectors
      let raw := if fromSelectors = "" then getTextList r.doc else fromSelectors
      let body_text := String.intercalate " " (pySplit raw)
      (title, body_text, (pySplit body_text).length)

/-- `calculate_features` of `utils/features.py` (lines 4-10); the body
is the same as the `app.py` copy. -/
def calculate_features (flesch : String → ℚ) (body_text : String)
    (word_count : ℤ) : ℕ × ℚ × Bool :=
  let sentence_count :=
    if body_text ≠ "" then
      (runs (fun c => c == '.' || c == '!' || c == '?') body_text.toList).length
    else 0
  let readability :=
    if body_text ≠ "" ∧ 10 < (pySplit body_text).length then flesch body_text
    else 0
  let is_thin := decide (word_count < 500)
  (sentence_count, readability, is_thin)

/-- `predict_quality` of `utils/scorer.py` (lines 3-11); the body is the
same as the `app.py` copy. -/
def predict_quality (model : App.ModelInput → String) (word_count : ℤ)
    (sentence_count : ℤ) (readability : ℚ) : String :=
  model ⟨word_count, sentence_count, readability⟩

end Utils

/-! ## Basic lemmas about the similarity score -/

theorem wc_similarity_nonneg (a b : ℕ) : 0 ≤ wc_similarity a b := by
  unfold wc_similarity
  have hd : (1 : ℚ) ≤ ((max a (max b 1) : ℕ) : ℚ) := by
    exact_mod_cast Nat.one_le_iff_ne_zero.mpr (by positivity)
  have hn : ((((a : ℤ) - b).natAbs : ℕ) : ℚ) ≤ ((max a (max b 1) : ℕ) : ℚ) := by
    have : (((a : ℤ) - b).natAbs : ℕ) ≤ max a (max b 1) := by omega
    exact_mod_cast this
  have := div_le_one_of_le₀ hn (by linarith)
  linarith

theorem wc_similarity_le_one (a b : ℕ) : wc_similarity a b ≤ 1 := by
  unfold wc_similarity
  have hd : (0 : ℚ) < ((max a (max b 1) : ℕ) : ℚ) := by
    have : 0 < max a (max b 1) := by omega
    exact_mod_cast this
  have : (0 : ℚ) ≤ ((((a : ℤ) - b).natAbs : ℕ) : ℚ) / ((max a (max b 1) : ℕ) : ℚ) :=
    div_nonneg (by positivity) (le_of_lt hd)
  linarith

theorem wc_similarity_self (n : ℕ) : wc_similarity n n = 1 := by
  unfold wc_similarity
  simp

theorem keyword_overlap_nonneg (t e : String) : 0 ≤ keyword_overlap t e := by
  unfold keyword_overlap
  split
  · exact div_nonneg (by positivity) (by positivity)
  · exact le_refl 0

theorem keyword_overlap_le_one (t e : String) : keyword_overlap t e ≤ 1 := by
  unfold keyword_overlap
  split
  · next h =>
    apply div_le_one_of_le₀
    · exact_mod_cast Finset.card_le_card
        ((Finset.inter_subset_left).trans Finset.subset_union_left)
    · positivity
  · exact zero_le_one

theorem combined_similarity_nonneg (t e : String) :
    0 ≤ combined_similarity t e := by
  unfold combined_similarity
  have h1 := wc_similarity_nonneg (pySplit t).length (pySplit e).length
  have h2 := keyword_overlap_nonneg t e
  nlinarith

theorem combined_similarity_le_one (t e : String) :
    combined_similarity t e ≤ 1 := by
  unfold combined_similarity
  have h1 := wc_similarity_le_one (pySplit t).length (pySplit e).length
  have h2 := keyword_overlap_le_one t e
  have h3 := wc_similarity_nonneg (pySplit t).length (pySplit e).length
  have h4 := keyword_overlap_nonneg t e
  nlinarith

/-- Inversion for the row loop: every kept candidate comes from a corpus
row that is not the target's url, has a non-null body, and scores above
the cutoff; the candidate records that row's data. -/
theorem mem_similarityCandidates {target_url target_text : String}
    {data : List CorpusRow} {r : SimilarityResult}
    (h : r ∈ similarityCandidates target_url target_text data) :
    ∃ row ∈ data, row.url ≠ target_url ∧ ∃ b, row.body_text = some b ∧
      3 / 10 < combined_similarity target_text b ∧
      r = ⟨row.url, combined_similarity target_text b,
           (pySplit b).length, row.quality_label⟩ := by
  obtain ⟨row, hrow, hf⟩ := List.mem_filterMap.mp h
  by_cases hu : row.url = target_url
  · simp [candidateOfRow, hu] at hf
  · rcases hb : row.body_text with _ | b
    · simp [candidateOfRow, hu, hb] at hf
    · by_cases hc : 3 / 10 < combined_similarity target_text b
      · refine ⟨row, hrow, hu, b, hb, hc, ?_⟩
        simp only [candidateOfRow, if_neg hu, hb, if_pos hc] at hf
        exact (Option.some.inj hf).symm
      · simp [candidateOfRow, hu, hb, hc] at hf

/-- Conversely, a qualifying row contributes its candidate. -/
theorem candidate_mem_similarityCandidates {target_url target_text : String}
    {data : List CorpusRow} {row : CorpusRow} {b : String}
    (hrow : row ∈ data) (hu : row.url ≠ target_url)
    (hb : row.body_text = some b)
    (hc : 3 / 10 < combined_similarity target_text b) :
    (⟨row.url, combined_similarity target_text b,
      (pySplit b).length, row.quality_label⟩ : SimilarityResult) ∈
        similarityCandidates target_url target_text data := by
  refine List.mem_filterMap.mpr ⟨row, hrow, ?_⟩
  simp only [candidateOfRow, if_neg hu, hb, if_pos hc]

/-- Every result entry is one of the loop's candidates. -/
theorem mem_of_mem_improved_similarity {target_url target_text : String}
    {data : List CorpusRow} {top_n : ℕ} {r : SimilarityResult}
    (h : r ∈ improved_similarity target_url target_text data top_n) :
    r ∈ similarityCandidates target_url target_text data := by
  by_cases ht : target_text = ""
  · simp [improved_similarity, ht] at h
  · rw [improved_similarity, if_neg ht] at h
    exact List.mem_mergeSort.mp (List.mem_of_mem_take h)

/-! ## Claims about the similarity ranker -/

/-- C1: every entry returned by the similarity ranker carries a
similarity equal to `0.6 * wc_similarity + 0.4 * keyword_overlap` for
the corpus row it came from, and this value always lies in [0, 1]. -/
theorem similarity_entry_formula_and_unit_interval
    (target_url target_text : String) (existing_data : List CorpusRow)
    (top_n : ℕ) :
    ∀ r ∈ improved_similarity target_url target_text existing_data top_n,
      (∃ row ∈ existing_data, ∃ b, row.body_text = some b ∧
        r.similarity =
          wc_similarity (pySplit target_text).length (pySplit b).length
              * (6 / 10)
            + keyword_overlap target_text b * (4 / 10)) ∧
      0 ≤ r.similarity ∧ r.similarity ≤ 1 := by
  intro r hr
  obtain ⟨row, hrow, -, b, hb, -, hrval⟩ :=
    mem_similarityCandidates (mem_of_mem_improved_similarity hr)
  subst hrval
  exact ⟨⟨row, hrow, b, hb, rfl⟩,
    combined_similarity_nonneg target_text b,
    combined_similarity_le_one target_text b⟩

/-- Witness for C1 at a concrete corpus. -/
theorem similarity_entry_formula_and_unit_interval_witness :
    (∃ row ∈ [(⟨"a", some "wxyz", some "High"⟩ : CorpusRow)], ∃ b,
        row.body_text = some b ∧
        (⟨"a", 1, 1, some "High"⟩ : SimilarityResult).similarity =
          wc_similarity (pySplit "wxyz").length (pySplit b).length * (6 / 10)
            + keyword_overlap "wxyz" b * (4 / 10)) ∧
    0 ≤ (⟨"a", 1, 1, some "High"⟩ : SimilarityResult).similarity ∧
    (⟨"a", 1, 1, some "High"⟩ : SimilarityResult).similarity ≤ 1 :=
  similarity_entry_formula_and_unit_interval "t" "wxyz"
    [⟨"a", some "wxyz", some "High"⟩] 5 ⟨"a", 1, 1, some "High"⟩
    (by with_unfolding_all decide)

/-- C2: the returned list only contains rows scoring strictly above 0.3,
is sorted descending by similarity, has at most `top_n` entries, and for
each similarity value the entries keep their original corpus order
(stability of the sort, stated per tie class). -/
theorem similarity_results_cutoff_sorted_truncated_stable
    (target_url target_text : String) (existing_data : List CorpusRow)
    (top_n : ℕ) :
    (∀ r ∈ improved_similarity target_url target_text existing_data top_n,
      3 / 10 < r.similarity) ∧
    (improved_similarity target_url target_text existing_data top_n).Pairwise
      (fun a b => b.similarity ≤ a.similarity) ∧
    (improved_similarity target_url target_text existing_data top_n).length
      ≤ top_n ∧
    ∀ q : ℚ,
      List.Sublist
        ((improved_similarity target_url target_text existing_data
          top_n).filter (fun r => r.similarity == q))
        ((similarityCandidates target_url target_text existing_data).filter
          (fun r => r.similarity == q)) := by
  have htrans : ∀ a b c : SimilarityResult,
      simDescLE a b → simDescLE b c → simDescLE a c := by
    intro a b c h1 h2
    simp only [simDescLE, decide_eq_true_eq] at *
    exact le_trans h2 h1
  have htotal : ∀ a b : SimilarityResult, simDescLE a b || simDescLE b a := by
    intro a b
    simp only [simDescLE, Bool.or_eq_true, decide_eq_true_eq]
    exact le_total _ _
  refine ⟨?_, ?_, ?_, ?_⟩
  · intro r hr
    obtain ⟨row, -, -, b, -, hc, hrval⟩ :=
      mem_similarityCandidates (mem_of_mem_improved_similarity hr)
    subst hrval
    exact hc
  · by_cases ht : target_text = ""
    · simp [improved_similarity, ht]
    · rw [improved_similarity, if_neg ht]
      have hs := List.sorted_mergeSort htrans htotal
        (similarityCandidates target_url target_text existing_data)
      exact ((hs.sublist (List.take_sublist _ _)).imp (fun h => by
        simpa [simDescLE] using h))
  · by_cases ht : target_text = ""
    · simp [improved_similarity, ht]
    · rw [improved_similarity, if_neg ht]
      exact List.length_take_le _ _
  · intro q
    by_cases ht : target_text = ""
    · simp [improved_similarity, ht]
    · rw [improved_similarity, if_neg ht]
      set L := similarityCandidates target_url target_text existing_data with hL
      have hPW : (L.filter (fun r => r.similarity == q)).Pairwise
          (fun a b => simDescLE a b) := by
        apply List.pairwise_of_forall_mem_list
        intro a ha b hb
        have ha' := List.of_mem_filter ha
        have hb' := List.of_mem_filter hb
        simp only [beq_iff_eq] at ha' hb'
        simp [simDescLE, ha', hb']
      have h1 : List.Sublist (L.filter (fun r => r.similarity == q))
          (L.mergeSort simDescLE) :=
        List.sublist_mergeSort htrans htotal hPW (List.filter_sublist L)
      have h2 : (L.filter (fun r => r.similarity == q)).filter
          (fun r => r.similarity == q) = L.filter (fun r => r.similarity == q) := by
        rw [List.filter_filter]
        simp
      have h3 : List.Sublist (L.filter (fun r => r.similarity == q))
          ((L.mergeSort simDescLE).filter (fun r => r.similarity == q)) :=
        h2 ▸ h1.filter _
      have h4 : ((L.mergeSort simDescLE).filter
            (fun r => r.similarity == q)).length =
          (L.filter (fun r => r.similarity == q)).length :=
        ((L.mergeSort_perm simDescLE).filter _).length_eq
      have h5 : (L.mergeSort simDescLE).filter (fun r => r.similarity == q) =
          L.filter (fun r => r.similarity == q) :=
        (h3.eq_of_length h4.symm).symm
      exact h5 ▸ (List.take_sublist _ _).filter _

/-- Witness for C2 at a concrete corpus. -/
theorem similarity_results_cutoff_sorted_truncated_stable_witness :
    (∀ r ∈ improved_similarity "t" "wxyz" [⟨"a", some "wxyz", some "High"⟩] 5,
      3 / 10 < r.similarity) ∧
    (improved_similarity "t" "wxyz" [⟨"a", some "wxyz", some "High"⟩] 5).Pairwise
      (fun a b => b.similarity ≤ a.similarity) ∧
    (improved_similarity "t" "wxyz" [⟨"a", some "wxyz", some "High"⟩] 5).length
      ≤ 5 ∧
    ∀ q : ℚ,
      List.Sublist
        ((improved_similarity "t" "wxyz" [⟨"a", some "wxyz", some "High"⟩]
          5).filter (fun r => r.similarity == q))
        ((similarityCandidates "t" "wxyz"
            [⟨"a", some "wxyz", some "High"⟩]).filter
          (fun r => r.similarity == q)) :=
  similarity_results_cutoff_sorted_truncated_stable "t" "wxyz"
    [⟨"a", some "wxyz", some "High"⟩] 5

/-- C3: no corpus row whose url equals the target url ever appears in
the results: every returned entry's url differs from the target's. -/
theorem self_match_excluded (target_url target_text : String)
    (existing_data : List CorpusRow) (top_n : ℕ) :
    ∀ r ∈ improved_similarity target_url target_text existing_data top_n,
      r.url ≠ target_url := by
  intro r hr
  obtain ⟨row, -, hu, b, -, -, hrval⟩ :=
    mem_similarityCandidates (mem_of_mem_improved_similarity hr)
  subst hrval
  exact hu

/-- Witness for C3 at a concrete corpus. -/
theorem self_match_excluded_witness :
    (⟨"a", 1, 1, some "High"⟩ : SimilarityResult).url ≠ "t" :=
  self_match_excluded "t" "wxyz" [⟨"a", some "wxyz", some "High"⟩] 5
    ⟨"a", 1, 1, some "High"⟩ (by with_unfolding_all decide)

/-- C4, counterexample: two texts with equal word counts and equal
(namely empty) keyword sets score 0.6, not 1.0 — the keyword overlap is
defined to be 0 when either set is empty, even when the sets are equal. -/
theorem identical_profile_not_always_one :
    (pySplit "ab ab").length = (pySplit "cd cd").length ∧
    keywords "ab ab" = keywords "cd cd" ∧
    combined_similarity "ab ab" "cd cd" = 3 / 5 ∧ (3 / 5 : ℚ) ≠ 1 :=
  ⟨by decide, by decide, by with_unfolding_all decide, by norm_num⟩

/-- C4, amended: a corpus row (url differing from the target's, non-null
body) whose word count equals the target's and whose keyword set equals
the target's scores exactly 1.0, provided that common keyword set is
non-empty. -/
theorem identical_profile_scores_one (target_url target_text : String)
    (row : CorpusRow) (b : String)
    (_hurl : row.url ≠ target_url) (_hb : row.body_text = some b)
    (hwc : (pySplit target_text).length = (pySplit b).length)
    (hkw : keywords target_text = keywords b)
    (hne : (keywords target_text).Nonempty) :
    combined_similarity target_text b = 1 := by
  have h1 : wc_similarity (pySplit target_text).length (pySplit b).length = 1 := by
    rw [← hwc]
    exact wc_similarity_self _
  have h2 : keyword_overlap target_text b = 1 := by
    unfold keyword_overlap
    rw [← hkw, if_pos ⟨hne, hne⟩, Finset.inter_self, Finset.union_self]
    exact div_self (by exact_mod_cast Finset.card_ne_zero_of_mem hne.choose_spec)
  unfold combined_similarity
  rw [h1, h2]
  norm_num

/-- Witness for the amended C4. -/
theorem identical_profile_scores_one_witness :
    combined_similarity "wxyz" "wxyz" = 1 :=
  identical_profile_scores_one "t" "wxyz" ⟨"a", some "wxyz", none⟩ "wxyz"
    (by decide) rfl rfl rfl (by decide)

/-- C7 (code bug witness): a corpus row whose `quality_label` cell is
`NaN` (the left join matched no features row for its url) is returned
with `quality = NaN`, not the string `"Unknown"`: `Series.get` with a
default only falls back when the key is absent, and the merged frame
always has the `quality_label` column. -/
theorem quality_nan_not_replaced_by_unknown :
    improved_similarity "t" "wxyz" [⟨"a", some "wxyz", none⟩] 5 =
      [⟨"a", 1, 1, none⟩] ∧
    (⟨"a", 1, 1, none⟩ : SimilarityResult).quality ≠ some "Unknown" :=
  ⟨by with_unfolding_all decide, by decide⟩

/-! ## Claims about degenerate (all-whitespace) targets -/

theorem runsAux_ne_nil (p : Char → Bool) (l : List Char) (acc : List Char)
    (h : acc ≠ []) : runsAux p l acc ≠ [] := by
  induction l generalizing acc with
  | nil =>
    simp [runsAux, h]
  | cons c cs ih =>
    rw [runsAux]
    by_cases hp : p c
    · rw [if_pos hp]
      exact ih _ (by simp)
    · rw [if_neg hp, if_neg (by simpa using h)]
      simp

theorem runs_eq_nil_iff (p : Char → Bool) (l : List Char) :
    runs p l = [] ↔ ∀ c ∈ l, p c = false := by
  unfold runs
  induction l with
  | nil => simp [runsAux]
  | cons c cs ih =>
    by_cases hp : p c
    · have he : runsAux p (c :: cs) [] = runsAux p cs [c] := by
        simp [runsAux, hp]
      rw [he]
      constructor
      · intro h
        exact absurd h (runsAux_ne_nil p cs [c] (by simp))
      · intro h
        exact absurd hp (by simp [h c (List.mem_cons_self c cs)])
    · have he : runsAux p (c :: cs) [] = runsAux p cs [] := by
        simp [runsAux, hp]
      rw [he]
      rw [ih]
      constructor
      · intro h d hd
        rcases List.mem_cons.mp hd with rfl | hd'
        · simpa using hp
        · exact h d hd'
      · intro h d hd
        exact h d (List.mem_cons_of_mem c hd)

/-- A character of an all-whitespace string stays a non-word character
after lowercasing. -/
theorem lower_whitespace_not_word (d : Char) (h : d.isWhitespace = true) :
    isWordChar d.toLower = false := by
  have hd : ((d = ' ' ∨ d = '\t') ∨ d = '\r') ∨ d = '\n' := by
    simpa [Char.isWhitespace] using h
  rcases hd with ((rfl | rfl) | rfl) | rfl <;> decide

/-- A string with no whitespace-split tokens has no keywords. -/
theorem keywords_eq_empty_of_pySplit_nil {s : String} (h : pySplit s = []) :
    keywords s = ∅ := by
  have hws : ∀ c ∈ s.toList, c.isWhitespace = true := by
    intro c hc
    have := (runs_eq_nil_iff _ _).mp (by simpa [pySplit] using h) c hc
    simpa using this
  have hruns : runs isWordChar (s.toList.map Char.toLower) = [] := by
    rw [runs_eq_nil_iff]
    intro c hc
    obtain ⟨d, hd, rfl⟩ := List.mem_map.mp hc
    exact lower_whitespace_not_word d (hws d hd)
  unfold keywords
  rw [hruns]
  rfl

theorem keyword_overlap_zero_of_empty_left {t e : String}
    (h : keywords t = ∅) : keyword_overlap t e = 0 := by
  simp [keyword_overlap, h]

/-- C10, amended: a non-empty all-whitespace target does not make the
ranker return early; every corpus row with a different url and a
zero-token body gets `wc_similarity = 1`, `keyword_overlap = 0`, hence
combined similarity 0.6, which passes the 0.3 cutoff, and the row's
entry appears in the results whenever the number of passing candidates
is at most `top_n`. -/
theorem whitespace_target_zero_token_rows
    (target_url target_text : String) (existing_data : List CorpusRow)
    (top_n : ℕ) (row : CorpusRow) (b : String)
    (htt : target_text ≠ "") (h0 : pySplit target_text = [])
    (hrow : row ∈ existing_data) (hurl : row.url ≠ target_url)
    (hb : row.body_text = some b) (hb0 : pySplit b = [])
    (hfit : (similarityCandidates target_url target_text existing_data).length
      ≤ top_n) :
    wc_similarity (pySplit target_text).length (pySplit b).length = 1 ∧
    keyword_overlap target_text b = 0 ∧
    combined_similarity target_text b = 3 / 5 ∧
    (⟨row.url, 3 / 5, 0, row.quality_label⟩ : SimilarityResult) ∈
      improved_similarity target_url target_text existing_data top_n := by
  have hw : wc_similarity (pySplit target_text).length (pySplit b).length = 1 := by
    rw [h0, hb0]
    exact wc_similarity_self 0
  have hk : keyword_overlap target_text b = 0 :=
    keyword_overlap_zero_of_empty_left (keywords_eq_empty_of_pySplit_nil h0)
  have hc : combined_similarity target_text b = 3 / 5 := by
    unfold combined_similarity
    rw [hw, hk]
    norm_num
  refine ⟨hw, hk, hc, ?_⟩
  have hcut : (3 : ℚ) / 10 < combined_similarity target_text b := by
    rw [hc]; norm_num
  have hmem := candidate_mem_similarityCandidates hrow hurl hb hcut
  rw [hc, hb0] at hmem
  rw [improved_similarity, if_neg htt]
  rw [List.take_of_length_le (by
    rw [List.length_mergeSort]
    exact hfit)]
  exact List.mem_mergeSort.mpr hmem

/-- Witness for the amended C10. -/
theorem whitespace_target_zero_token_rows_witness :
    wc_similarity (pySplit " ").length (pySplit "").length = 1 ∧
    keyword_overlap " " "" = 0 ∧
    combined_similarity " " "" = 3 / 5 ∧
    (⟨"a", 3 / 5, 0, none⟩ : SimilarityResult) ∈
      improved_similarity "t" " " [⟨"a", some "", none⟩] 1 :=
  whitespace_target_zero_token_rows "t" " " [⟨"a", some "", none⟩] 1
    ⟨"a", some "", none⟩ "" (by decide) (by decide) (by decide) (by decide)
    rfl (by decide) (by with_unfolding_all decide)

/-- C10, counterexample to the unqualified inclusion: with `top_n = 1`
and two qualifying zero-token rows, the second one is truncated away
even though it qualifies. -/
theorem whitespace_target_row_truncated_away :
    (" " : String) ≠ "" ∧ pySplit " " = [] ∧
    (⟨"b", some " ", none⟩ : CorpusRow) ∈
      [(⟨"a", some " ", none⟩ : CorpusRow), ⟨"b", some " ", none⟩] ∧
    ("b" : String) ≠ "t" ∧
    improved_similarity "t" " " [⟨"a", some " ", none⟩, ⟨"b", some " ", none⟩] 1
      = [⟨"a", 3 / 5, 0, none⟩] :=
  ⟨by decide, by decide, by decide, by decide, by with_unfolding_all decide⟩

/-! ## Claims about the fetcher and extractor -/

/-- C5, amended: in each failure case — a request exception, an HTTP
error status (`raise_for_status` raises for status ≥ 400), or a response
body under 1000 bytes — the app fetcher returns the zero-content
sentinel; in particular a 500-byte body does. -/
theorem fetch_failure_sentinel (resp : Option HttpResponse)
    (h : resp = none ∨ ∃ r, resp = some r ∧
      (400 ≤ r.status ∨ r.contentLength < 1000)) :
    App.scrape_and_parse_url resp = (some "", "", 0) := by
  rcases h with rfl | ⟨r, rfl, hr⟩
  · rfl
  · by_cases h4 : 400 ≤ r.status
    · simp [App.scrape_and_parse_url, h4]
    · rcases hr with h4' | hlen
      · exact absurd h4' h4
      · simp [App.scrape_and_parse_url, h4, hlen]

/-- Witness for the amended C5: a 500-byte body yields the sentinel. -/
theorem fetch_failure_sentinel_witness :
    App.scrape_and_parse_url
      (some ⟨200, 500, [Html.elem "p" [] [Html.text "hello"]]⟩) =
      (some "", "", 0) :=
  fetch_failure_sentinel _ (Or.inr ⟨_, rfl, Or.inr (by decide)⟩)

/-- C5, counterexample to "exactly": a successful response (status 200,
1000 bytes) whose document has no text also returns the sentinel, so the
sentinel is not returned only in the failure cases. -/
theorem sentinel_returned_outside_failure_cases :
    App.scrape_and_parse_url (some ⟨200, 1000, [Html.elem "div" [] []]⟩) =
      (some "", "", 0) ∧
    (200 : ℕ) < 400 ∧ (1000 : ℕ) ≤ 1000 :=
  ⟨by decide, by decide, by decide⟩

/-- C6, amended: the extractor accepts the first selector whose joined
element text exceeds 200 characters (an emptily-matching selector never
qualifies, its joined text being empty); when no selector qualifies, the
paragraph fallback is used only when the joined stripped paragraph text
is non-empty, and otherwise — no `<p>` elements, or all of them
whitespace-only — the whole document's visible text is used. -/
theorem extractor_fallback_chain (doc : List Html) (sel : Selector)
    (rest : List Selector) :
    (App.selectLoop doc (sel :: rest) =
      if 200 < (App.joinTexts (selectList sel doc)).length
      then App.joinTexts (selectList sel doc)
      else App.selectLoop doc rest) ∧
    (App.selectLoop doc App.content_selectors ≠ "" →
      App.extractBody doc = App.selectLoop doc App.content_selectors) ∧
    (App.selectLoop doc App.content_selectors = "" →
      (App.joinTexts (selectList (Selector.tagSel "p") doc) ≠ "" →
        App.extractBody doc =
          App.joinTexts (selectList (Selector.tagSel "p") doc)) ∧
      (App.joinTexts (selectList (Selector.tagSel "p") doc) = "" →
        App.extractBody doc = getTextList doc)) := by
  refine ⟨?_, ?_, ?_⟩
  · by_cases he : (selectList sel doc).isEmpty
    · have h0 : selectList sel doc = [] := List.isEmpty_iff.mp he
      simp only [App.selectLoop, if_pos he, h0]
      have hij : (" ".intercalate ([] : List String)) = "" := rfl
      simp [App.joinTexts, hij]
    · simp only [App.selectLoop, if_neg he]
  · intro h
    simp only [App.extractBody, if_neg h]
  · intro h
    constructor
    · intro hp
      simp only [App.extractBody, if_pos h, if_neg hp]
    · intro hp
      simp only [App.extractBody, if_pos h, if_pos hp]

/-- Witness for the amended C6: a document whose only text is a short
paragraph falls back to the joined paragraph text. -/
theorem extractor_fallback_chain_witness :
    App.extractBody [Html.elem "p" [] [Html.text "hi"]] =
      App.joinTexts
        (selectList (Selector.tagSel "p") [Html.elem "p" [] [Html.text "hi"]]) :=
  ((extractor_fallback_chain [Html.elem "p" [] [Html.text "hi"]]
    (Selector.tagSel "article") []).2.2 (by decide)).1 (by decide)

/-- C6, counterexample: a document with a whitespace-only `<p>` and
stray text outside it: no selector qualifies, `<p>` elements exist, yet
the extracted body is the whole document's text, not the joined
paragraph text. -/
theorem paragraph_fallback_skipped_when_blank :
    App.selectLoop
      [Html.elem "html" [] [Html.text "x", Html.elem "p" [] [Html.text " "]]]
      App.content_selectors = "" ∧
    (selectList (Selector.tagSel "p")
      [Html.elem "html" [] [Html.text "x", Html.elem "p" [] [Html.text " "]]]
      ).isEmpty = false ∧
    App.extractBody
      [Html.elem "html" [] [Html.text "x", Html.elem "p" [] [Html.text " "]]]
      = "x " ∧
    App.extractBody
        [Html.elem "html" [] [Html.text "x", Html.elem "p" [] [Html.text " "]]]
      ≠ App.joinTexts (selectList (Selector.tagSel "p")
        [Html.elem "html" [] [Html.text "x", Html.elem "p" [] [Html.text " "]]]) :=
  ⟨by decide, by decide, by decide, by decide⟩

/-! ## Claims about the feature calculator and the duplicated helpers -/

/-- C8: both copies of the feature calculator flag thin content exactly
when the word count is below 500; at exactly 500 the flag is false. -/
theorem is_thin_iff_word_count_lt_500 (flesch : String → ℚ)
    (body_text : String) (word_count : ℤ) :
    ((App.calculate_features flesch body_text word_count).2.2 = true ↔
      word_count < 500) ∧
    ((Utils.calculate_features flesch body_text word_count).2.2 = true ↔
      word_count < 500) ∧
    (App.calculate_features flesch body_text 500).2.2 = false ∧
    (Utils.calculate_features flesch body_text 500).2.2 = false := by
  refine ⟨?_, ?_, ?_, ?_⟩ <;> simp [App.calculate_features, Utils.calculate_features]

/-- C9, amended: the two copies of `calculate_features` and of
`predict_quality` are extensionally equal, but the two copies of
`scrape_and_parse_url` are not: on the same 500-byte HTTP response the
app copy returns the sentinel (its 1000-byte floor) while the utils copy
extracts the text. -/
theorem duplicated_helpers_equal_but_scrapers_differ :
    (∀ (flesch : String → ℚ) (body_text : String) (word_count : ℤ),
      App.calculate_features flesch body_text word_count =
        Utils.calculate_features flesch body_text word_count) ∧
    (∀ (model : App.ModelInput → String) (word_count sentence_count : ℤ)
        (readability : ℚ),
      App.predict_quality model word_count sentence_count readability =
        Utils.predict_quality model word_count sentence_count readability) ∧
    App.scrape_and_parse_url
        (some ⟨200, 500, [Html.elem "p" [] [Html.text "hello"]]⟩) ≠
      Utils.scrape_and_parse_url
        (some ⟨200, 500, [Html.elem "p" [] [Html.text "hello"]]⟩) :=
  ⟨fun _ _ _ => rfl, fun _ _ _ _ => rfl, by decide⟩

/-- C9, counterexample: the concrete values the two scrapers return on
that same response. -/
theorem scrapers_disagree_on_small_response :
    App.scrape_and_parse_url
      (some ⟨200, 500, [Html.elem "p" [] [Html.text "hello"]]⟩) =
      (some "", "", 0) ∧
    Utils.scrape_and_parse_url
      (some ⟨200, 500, [Html.elem "p" [] [Html.text "hello"]]⟩) =
      (some "", "hello", 1) :=
  ⟨by decide, by decide⟩
